import Mathlib

/- Verification development for the ADCS supervisor in src/adcsSSP.cpp:
the mode state machine, fault classification, persistent-state handling and
reset escalation. Floating-point quantities are modelled as rationals,
machine enumerations as inductive types, and the stubbed hardware
collaborators (IMU, power system, time source, transition predicates) as an
explicit oracle environment threaded through each cycle. Observable side
effects (non-volatile-memory writes, actuator commands, watchdog refreshes)
are recorded in an event trace so that ordering and frame properties can be
stated. -/

namespace ADCS

/-- The five ADCS operating modes (enum class ADCSMode, src/adcsSSP.cpp:30-36),
in source declaration order. -/
inductive ADCSMode
  | DETUMBLING
  | SUN_ACQUISITION
  | NOMINAL_POINTING
  | SAFE_MODE
  | FAULT_RECOVERY
deriving DecidableEq

/-- Underlying uint8_t value of each ADCSMode enumerator (the enum has no
explicit initializers, so values are 0..4 in declaration order). -/
def ADCSMode.val : ADCSMode → ℕ
  | .DETUMBLING => 0
  | .SUN_ACQUISITION => 1
  | .NOMINAL_POINTING => 2
  | .SAFE_MODE => 3
  | .FAULT_RECOVERY => 4

/-- A 3-component angular-velocity vector (std::array<float,3>), with the
float components modelled as rationals. -/
structure Vec3 where
  x : ℚ
  y : ℚ
  z : ℚ
deriving DecidableEq

/-- The in-memory control state (struct ADCSState, src/adcsSSP.cpp:38-45):
current_mode, mode_entry_time (uint32_t), angular_velocity, power_level.
Note the struct has no previous_operational_mode field. -/
structure ADCSState where
  current_mode : ADCSMode
  mode_entry_time : ℕ
  angular_velocity : Vec3
  power_level : ℚ
deriving DecidableEq

/-- The on-storage record (struct NonVolatileMemory::ADCSState,
src/adcsSSP.cpp:10-19): current_mode, mode_entry_time, angular_velocity,
power_level, timestamp, checksum. It has no consecutive_software_reset_count
field. -/
structure NonVolatileMemory.ADCSState where
  current_mode : ADCSMode
  mode_entry_time : ℕ
  angular_velocity : Vec3
  power_level : ℚ
  timestamp : ℚ
  checksum : ℚ
deriving DecidableEq

/-- FaultManager::FaultType (src/adcsSSP.cpp:48-55), in source declaration
order. -/
inductive FaultType
  | NONE
  | HIGH_ANGULAR_RATE
  | LOW_POWER
  | SENSOR_ANOMALY
  | CRITICAL
  | SOFTWARE_RESET_REQUIRED
deriving DecidableEq

/-- constexpr float MAX_ANGULAR_RATE = 0.1f (src/adcsSSP.cpp:65), rad/s. -/
def MAX_ANGULAR_RATE : ℚ := 1/10

/-- constexpr float LOW_POWER_THRESHOLD = 4.0f (src/adcsSSP.cpp:72), watts. -/
def LOW_POWER_THRESHOLD : ℚ := 4

/-- FaultManager::check_angular_rate (src/adcsSSP.cpp:64-69): true iff any of
the three axis magnitudes exceeds MAX_ANGULAR_RATE. -/
def check_angular_rate (s : ADCSState) : Bool :=
  decide (|s.angular_velocity.x| > MAX_ANGULAR_RATE) ||
  decide (|s.angular_velocity.y| > MAX_ANGULAR_RATE) ||
  decide (|s.angular_velocity.z| > MAX_ANGULAR_RATE)

/-- FaultManager::check_power_level (src/adcsSSP.cpp:71-74): true iff
power_level is below LOW_POWER_THRESHOLD. -/
def check_power_level (s : ADCSState) : Bool :=
  decide (s.power_level < LOW_POWER_THRESHOLD)

/-- FaultManager::check_sensors (src/adcsSSP.cpp:76-79): the sensor
consistency check body is a placeholder that returns false. -/
def check_sensors : Bool := false

/-- FaultManager::check_faults (src/adcsSSP.cpp:57-62): checks angular rate,
then power level, then sensors, returning the first matching fault. -/
def check_faults (s : ADCSState) : FaultType :=
  if check_angular_rate s then .HIGH_ANGULAR_RATE
  else if check_power_level s then .LOW_POWER
  else if check_sensors then .SENSOR_ANOMALY
  else .NONE

/-- Modelled from the spec: the checksum digest. The body of the write/read
checksum computation is absent from src (StateMachine::is_corrupt at
src/adcsSSP.cpp:221-223 is an empty stub); its comment documents the digest as
the sum of all state parameters, and spec section 3 calls it an integrity
digest over all fields preceding the checksum. -/
def compute_checksum (r : NonVolatileMemory.ADCSState) : ℚ :=
  (r.current_mode.val : ℚ) + (r.mode_entry_time : ℚ) +
  r.angular_velocity.x + r.angular_velocity.y + r.angular_velocity.z +
  r.power_level + r.timestamp

/-- Modelled from the spec: StateMachine::is_corrupt (src/adcsSSP.cpp:221-223)
is an empty stub; per its own comment and spec section 3, a record is corrupt
iff recomputing the digest over its fields differs from the stored checksum. -/
def is_corrupt (r : NonVolatileMemory.ADCSState) : Bool :=
  decide (compute_checksum r ≠ r.checksum)

/-- Squared Euclidean magnitude of an angular-velocity vector. -/
def magnitudeSq (v : Vec3) : ℚ := v.x ^ 2 + v.y ^ 2 + v.z ^ 2

/-- Modelled from the spec: StateMachine::is_state_safe (src/adcsSSP.cpp:225-227)
is an empty stub; per spec section 4.1 it returns false iff the persisted
angular-velocity magnitude exceeds the high-angular-rate threshold, the
persisted power level is below the low-power threshold, or the persisted mode
is SAFE_MODE or FAULT_RECOVERY. (Magnitude comparison is stated on squares,
equivalent for the nonnegative threshold.) -/
def is_state_safe (r : NonVolatileMemory.ADCSState) : Bool :=
  !(decide (magnitudeSq r.angular_velocity > MAX_ANGULAR_RATE ^ 2) ||
    decide (r.power_level < LOW_POWER_THRESHOLD) ||
    decide (r.current_mode = ADCSMode.SAFE_MODE) ||
    decide (r.current_mode = ADCSMode.FAULT_RECOVERY))

/-- The boot-mode decision of the constructor StateMachine::StateMachine
(src/adcsSSP.cpp:88-101), as a function of the last persisted record: if the
record is corrupt the mode is set to SAFE_MODE; otherwise if it is not safe
the mode is set to SAFE_MODE; otherwise the mode is set to DETUMBLING. -/
def boot_mode (r : NonVolatileMemory.ADCSState) : ADCSMode :=
  if is_corrupt r then .SAFE_MODE
  else if !(is_state_safe r) then .SAFE_MODE
  else .DETUMBLING

/-- Modelled from the spec: the hardware/stub collaborators that run_cycle
consults. read_imu, read_power_system and get_current_time are placeholder
bodies in src (src/adcsSSP.cpp:238-249) standing for the external IMU, power
and time drivers of spec section 6, and the transition predicates
is_angular_rate_stable, sun_vectors_aligned, power_restored,
fault_recovery_complete (src/adcsSSP.cpp:252-255) have empty bodies standing
for the conditions of the transition table in spec section 4.1. Each is an
oracle value for one cycle. -/
structure Env where
  imu : Vec3
  power : ℚ
  now : ℕ
  is_angular_rate_stable : Bool
  sun_vectors_aligned : Bool
  power_restored : Bool
  fault_recovery_complete : Bool

/-- Observable side effects of one control cycle, recorded in order of
occurrence: non-volatile-memory writes, mode exit/behavior markers, actuator
and reset commands, the empty reset-check calls, fault evaluation, and the
watchdog refresh. -/
inductive Event
  | sensorRefresh
  | modeExit (m : ADCSMode)
  | modeBehavior (m : ADCSMode)
  | nvmWrite (r : NonVolatileMemory.ADCSState)
  | swResetCheck
  | hwResetCheck
  | faultEval (f : FaultType)
  | engageMagnetorquers
  | powerSystemSlowdown
  | resetSensorArray
  | execSoftwareReset
  | execHardwareReset
  | watchdogRefresh
deriving DecidableEq

/-- The record constructed by StateMachine::save_persistent_state
(src/adcsSSP.cpp:229-235): a designated initializer sets only
.current_mode = current_state.current_mode and
.timestamp = current_state.mode_entry_time; every other member
(mode_entry_time, angular_velocity, power_level, checksum) is
value-initialized to zero. -/
def nvm_record_of (s : ADCSState) : NonVolatileMemory.ADCSState :=
  { current_mode := s.current_mode
    mode_entry_time := 0
    angular_velocity := ⟨0, 0, 0⟩
    power_level := 0
    timestamp := (s.mode_entry_time : ℚ)
    checksum := 0 }

/-- StateMachine::save_persistent_state (src/adcsSSP.cpp:229-235): builds the
record above and performs one NonVolatileMemory::write. -/
def save_persistent_state (s : ADCSState) : List Event :=
  [.nvmWrite (nvm_record_of s)]

/-- StateMachine::run_safe_mode (src/adcsSSP.cpp:275-285): saves the
persistent state, then runs the (empty) safe-mode logic; the trailing
fault_recovery_complete check only returns. -/
def run_safe_mode (s : ADCSState) : List Event :=
  save_persistent_state s

/-- StateMachine::execute_state_behavior (src/adcsSSP.cpp:202-219): dispatches
on the mode to run_detumbling / run_sun_acquisition / run_nominal_pointing /
run_safe_mode (the default case, reached for FAULT_RECOVERY, does nothing).
The run_* bodies other than run_safe_mode are placeholders with no observable
effect; each dispatch is recorded as a modeBehavior event. -/
def execute_state_behavior (s : ADCSState) : ADCSMode → List Event
  | .DETUMBLING => [.modeBehavior .DETUMBLING]
  | .SUN_ACQUISITION => [.modeBehavior .SUN_ACQUISITION]
  | .NOMINAL_POINTING => [.modeBehavior .NOMINAL_POINTING]
  | .SAFE_MODE => .modeBehavior .SAFE_MODE :: run_safe_mode s
  | .FAULT_RECOVERY => []

/-- StateMachine::execute_mode_entry (src/adcsSSP.cpp:194-196): forwards to
execute_state_behavior. -/
def execute_mode_entry (s : ADCSState) (m : ADCSMode) : List Event :=
  execute_state_behavior s m

/-- StateMachine::evaluate_transition_conditions (src/adcsSSP.cpp:131-156).
The source declares a LOCAL variable previous_operational_mode initialized to
current_state.current_mode and returns it in the SAFE_MODE and FAULT_RECOVERY
branches; the translation keeps that let-binding verbatim. -/
def evaluate_transition_conditions (env : Env) (s : ADCSState) : ADCSMode :=
  let previous_operational_mode := s.current_mode
  match s.current_mode with
  | .DETUMBLING =>
      if env.is_angular_rate_stable then .SUN_ACQUISITION else s.current_mode
  | .SUN_ACQUISITION =>
      if env.sun_vectors_aligned then .NOMINAL_POINTING else s.current_mode
  | .NOMINAL_POINTING => s.current_mode
  | .SAFE_MODE =>
      if env.power_restored then previous_operational_mode else s.current_mode
  | .FAULT_RECOVERY =>
      if env.fault_recovery_complete then previous_operational_mode
      else s.current_mode

/-- StateMachine::check_state_transition (src/adcsSSP.cpp:119-129): if the
evaluated mode differs from the current one, run the mode exit, set the mode,
set mode_entry_time from get_current_time, run the mode entry, then save the
persistent state. -/
def check_state_transition (env : Env) (s : ADCSState) :
    ADCSState × List Event :=
  let new_mode := evaluate_transition_conditions env s
  if new_mode ≠ s.current_mode then
    let s1 : ADCSState :=
      { s with current_mode := new_mode, mode_entry_time := env.now }
    (s1, .modeExit s.current_mode ::
          (execute_mode_entry s1 new_mode ++ save_persistent_state s1))
  else (s, [])

/-- StateMachine::handle_fault (src/adcsSSP.cpp:165-192). The source assigns
current_state.current_mode to a LOCAL previous_operational_mode (twice) and
never reads it; the switch engages magnetorquers and forces DETUMBLING on
HIGH_ANGULAR_RATE, sheds power and forces SAFE_MODE on LOW_POWER, resets the
sensor array on SENSOR_ANOMALY, and performs software/hardware resets on
SOFTWARE_RESET_REQUIRED/CRITICAL, leaving the mode unchanged in those cases
(and doing nothing for NONE, which has no case). -/
def handle_fault (fault : FaultType) (s : ADCSState) :
    ADCSState × List Event :=
  match fault with
  | .HIGH_ANGULAR_RATE =>
      ({ s with current_mode := .DETUMBLING }, [.engageMagnetorquers])
  | .LOW_POWER =>
      ({ s with current_mode := .SAFE_MODE }, [.powerSystemSlowdown])
  | .SENSOR_ANOMALY => (s, [.resetSensorArray])
  | .SOFTWARE_RESET_REQUIRED => (s, [.execSoftwareReset])
  | .CRITICAL => (s, [.execHardwareReset])
  | .NONE => (s, [])

/-- StateMachine::manage_faults (src/adcsSSP.cpp:158-163): evaluates
check_faults on the current state and, when the result is not NONE, handles
it. -/
def manage_faults (s : ADCSState) : ADCSState × List Event :=
  let fault := check_faults s
  if fault ≠ .NONE then
    let r := handle_fault fault s
    (r.1, .faultEval fault :: r.2)
  else (s, [.faultEval fault])

/-- StateMachine::update_sensor_data (src/adcsSSP.cpp:114-117): refreshes
angular_velocity from the IMU and power_level from the power system. -/
def update_sensor_data (env : Env) (s : ADCSState) : ADCSState :=
  { s with angular_velocity := env.imu, power_level := env.power }

/-- StateMachine::run_cycle (src/adcsSSP.cpp:103-112), one control cycle in
source statement order: update_sensor_data; check_state_transition;
execute_mode_entry on the current mode; check_for_software_reset and
check_for_hardware_reset (both empty bodies, src/adcsSSP.cpp:265-266);
manage_faults; watchdog refresh. Returns the final state and the event
trace. -/
def run_cycle (env : Env) (s : ADCSState) : ADCSState × List Event :=
  let s1 := update_sensor_data env s
  let t := check_state_transition env s1
  let behavior := execute_mode_entry t.1 t.1.current_mode
  let f := manage_faults t.1
  (f.1,
    .sensorRefresh :: (t.2 ++ behavior ++ [.swResetCheck, .hwResetCheck]
      ++ f.2 ++ [.watchdogRefresh]))

/-- Number of non-volatile-memory writes recorded in a trace. -/
def writeCount (es : List Event) : ℕ :=
  es.countP fun e => match e with | .nvmWrite _ => true | _ => false

/-- The reset action decided for one cycle by the escalation policy. -/
inductive ResetAction
  | noReset
  | softwareReset
  | hardwareReset
deriving DecidableEq

/-- Modelled from the spec: the escalation threshold of spec section 4.4. The
bodies of check_for_software_reset and check_for_hardware_reset are empty
stubs (src/adcsSSP.cpp:265-266) and no reset counter exists in src. -/
def SOFTWARE_RESET_THRESHOLD : ℕ := 3

/-- Modelled from the spec: the ResetEscalation step of spec section 4.4,
which is absent from src (check_for_software_reset and
check_for_hardware_reset are empty stubs and the persisted
consecutive_software_reset_count does not appear). Given the persisted count
and the cycle's fault: a SOFTWARE_RESET_REQUIRED or SENSOR_ANOMALY fault
triggers a software reset and increments the count, unless the count has
reached the threshold, in which case it escalates to a hardware reset; a
cycle completing with NONE resets the count to zero; other faults leave the
count unchanged. -/
def reset_escalation_step (count : ℕ) (fault : FaultType) : ℕ × ResetAction :=
  if fault = .SOFTWARE_RESET_REQUIRED ∨ fault = .SENSOR_ANOMALY then
    if SOFTWARE_RESET_THRESHOLD ≤ count then (count, .hardwareReset)
    else (count + 1, .softwareReset)
  else if fault = .NONE then (0, .noReset)
  else (count, .noReset)

/-- Runs the escalation policy over a sequence of per-cycle faults, returning
the final count and the reset actions taken, in order. -/
def run_escalation (count : ℕ) : List FaultType → ℕ × List ResetAction
  | [] => (count, [])
  | f :: fs =>
      let step := reset_escalation_step count f
      let rest := run_escalation step.1 fs
      (rest.1, step.2 :: rest.2)

/- Concrete inputs used by the theorems below. -/

/-- A valid, safe persisted record with an operational mode
(NOMINAL_POINTING, zero rates, power 5 W; checksum 2+0+0+0+0+5+0 = 7). -/
def rValidSafe : NonVolatileMemory.ADCSState :=
  { current_mode := .NOMINAL_POINTING, mode_entry_time := 0,
    angular_velocity := ⟨0, 0, 0⟩, power_level := 5, timestamp := 0,
    checksum := 7 }

/-- A valid but unsafe persisted record (power 3 W, below the 4 W threshold;
checksum 2+0+0+0+0+3+0 = 5). -/
def rValidUnsafe : NonVolatileMemory.ADCSState :=
  { current_mode := .NOMINAL_POINTING, mode_entry_time := 0,
    angular_velocity := ⟨0, 0, 0⟩, power_level := 3, timestamp := 0,
    checksum := 5 }

/-- The persisted record of spec scenario 1: mode SAFE_MODE, valid checksum
(3+0+0+0+0+5+0 = 8), zero angular velocity, power 5 W. -/
def rSafePersisted : NonVolatileMemory.ADCSState :=
  { current_mode := .SAFE_MODE, mode_entry_time := 0,
    angular_velocity := ⟨0, 0, 0⟩, power_level := 5, timestamp := 0,
    checksum := 8 }

/-- A state with angular velocity [0.2, 0, 0] rad/s and power 3.5 W: both the
angular-rate fault (threshold 0.1) and the low-power fault (threshold 4.0) are
active simultaneously. -/
def sHighRateLowPower : ADCSState :=
  ⟨.DETUMBLING, 0, ⟨1/5, 0, 0⟩, 7/2⟩

/-- A quiescent state in NOMINAL_POINTING: zero rates, power 5 W. -/
def sNominalPointing : ADCSState :=
  ⟨.NOMINAL_POINTING, 10, ⟨0, 0, 0⟩, 5⟩

/-- The same quiescent state but in SUN_ACQUISITION. -/
def sSunAcquisition : ADCSState :=
  ⟨.SUN_ACQUISITION, 10, ⟨0, 0, 0⟩, 5⟩

/-- A quiescent state already in SAFE_MODE: zero rates, power 5 W. -/
def sSafeQuiet : ADCSState :=
  ⟨.SAFE_MODE, 0, ⟨0, 0, 0⟩, 5⟩

/-- The state persisted in the C9 scenario: NOMINAL_POINTING, entry time 42,
angular velocity [0.05, 0.05, 0.05] rad/s, power 5 W. -/
def sStored : ADCSState :=
  ⟨.NOMINAL_POINTING, 42, ⟨1/20, 1/20, 1/20⟩, 5⟩

/-- An environment in which power has been restored (power_restored() reports
true, power reads 5 W) and the angular rate is safe. -/
def envResume : Env :=
  { imu := ⟨0, 0, 0⟩, power := 5, now := 20,
    is_angular_rate_stable := false, sun_vectors_aligned := false,
    power_restored := true, fault_recovery_complete := false }

/-- A quiet environment: safe rates, power 5 W, every transition predicate
false. -/
def envQuiet : Env :=
  { imu := ⟨0, 0, 0⟩, power := 5, now := 7,
    is_angular_rate_stable := false, sun_vectors_aligned := false,
    power_restored := false, fault_recovery_complete := false }

/-- The state after the transition-evaluation step of a cycle (the value of
current_state when execute_mode_entry runs in step 3 of run_cycle). -/
def cycle_mid_state (env : Env) (s : ADCSState) : ADCSState :=
  (check_state_transition env (update_sensor_data env s)).1

/- Helper lemmas (shared). -/

/-- writeCount of the empty trace. -/
theorem writeCount_nil : writeCount [] = 0 := rfl

/-- writeCount of a cons: one for a write event, zero otherwise. -/
theorem writeCount_cons (e : Event) (es : List Event) :
    writeCount (e :: es) =
      (match e with | .nvmWrite _ => 1 | _ => 0) + writeCount es := by
  cases e <;> simp [writeCount, List.countP_cons]
  omega

/-- writeCount distributes over append. -/
theorem writeCount_append (a b : List Event) :
    writeCount (a ++ b) = writeCount a + writeCount b := by
  simp [writeCount, List.countP_append]

/-- Fault management never writes to non-volatile memory. -/
theorem writeCount_manage_faults (s : ADCSState) :
    writeCount (manage_faults s).2 = 0 := by
  cases hf : check_faults s <;>
    simp [manage_faults, hf, handle_fault, writeCount]

/-- The mode-entry behavior writes exactly once in SAFE_MODE (run_safe_mode
calls save_persistent_state) and never otherwise. -/
theorem writeCount_execute_mode_entry (s : ADCSState) (m : ADCSMode) :
    writeCount (execute_mode_entry s m) = if m = .SAFE_MODE then 1 else 0 := by
  cases m <;> simp [execute_mode_entry, execute_state_behavior, run_safe_mode,
    save_persistent_state, writeCount]

/-- The mode-entry behavior never refreshes the watchdog. -/
theorem watchdog_not_in_entry (s : ADCSState) (m : ADCSMode) :
    Event.watchdogRefresh ∉ execute_mode_entry s m := by
  cases m <;> simp [execute_mode_entry, execute_state_behavior, run_safe_mode,
    save_persistent_state]

/-- The transition step never refreshes the watchdog. -/
theorem watchdog_not_in_transition (env : Env) (s : ADCSState) :
    Event.watchdogRefresh ∉ (check_state_transition env s).2 := by
  by_cases h : evaluate_transition_conditions env s = s.current_mode <;>
    simp [check_state_transition, h, save_persistent_state,
      watchdog_not_in_entry]

/-- Fault management never refreshes the watchdog. -/
theorem watchdog_not_in_faults (s : ADCSState) :
    Event.watchdogRefresh ∉ (manage_faults s).2 := by
  cases hf : check_faults s <;>
    simp [manage_faults, hf, handle_fault]

/-- Evaluation helper: rValidSafe has a matching checksum. -/
theorem is_corrupt_rValidSafe : is_corrupt rValidSafe = false := by
  simp [is_corrupt, compute_checksum, rValidSafe, ADCSMode.val]
  norm_num

/-- Evaluation helper: rValidSafe passes the safety predicate. -/
theorem is_state_safe_rValidSafe : is_state_safe rValidSafe = true := by
  simp [is_state_safe, magnitudeSq, rValidSafe, MAX_ANGULAR_RATE,
    LOW_POWER_THRESHOLD]
  norm_num

/-- C1: On construction, after reading the last persisted record: a record
that is invalid (checksum mismatch) or fails the safety predicate yields
initial mode SAFE_MODE; every valid, safe record yields initial mode
DETUMBLING unconditionally, regardless of which mode the record stores. -/
theorem C1_boot_mode (r : NonVolatileMemory.ADCSState) :
    (is_corrupt r = true ∨ is_state_safe r = false →
      boot_mode r = .SAFE_MODE) ∧
    (is_corrupt r = false → is_state_safe r = true →
      boot_mode r = .DETUMBLING) := by
  constructor
  · rintro (h | h)
    · simp [boot_mode, h]
    · cases hc : is_corrupt r <;> simp [boot_mode, hc, h]
  · intro h1 h2
    simp [boot_mode, h1, h2]

/-- Witness for C1: a concrete valid, safe NOMINAL_POINTING record boots into
DETUMBLING, and a concrete valid but unsafe record boots into SAFE_MODE. -/
theorem C1_boot_mode_witness :
    boot_mode rValidSafe = .DETUMBLING ∧
    boot_mode rValidUnsafe = .SAFE_MODE := by
  constructor
  · exact (C1_boot_mode rValidSafe).2 is_corrupt_rValidSafe
      is_state_safe_rValidSafe
  · refine (C1_boot_mode rValidUnsafe).1 (Or.inr ?_)
    simp [is_state_safe, magnitudeSq, rValidUnsafe, MAX_ANGULAR_RATE,
      LOW_POWER_THRESHOLD]
    norm_num

/-- C2: is_state_safe returns false exactly when the persisted
angular-velocity magnitude exceeds the high-angular-rate threshold, the
persisted power level is below the low-power threshold, or the persisted mode
is SAFE_MODE or FAULT_RECOVERY; consequently the valid record with mode
SAFE_MODE, zero angular velocity and power 5.0 boots into SAFE_MODE. -/
theorem C2_safety : (∀ r : NonVolatileMemory.ADCSState,
      is_state_safe r = false ↔
        magnitudeSq r.angular_velocity > MAX_ANGULAR_RATE ^ 2 ∨
        r.power_level < LOW_POWER_THRESHOLD ∨
        r.current_mode = .SAFE_MODE ∨ r.current_mode = .FAULT_RECOVERY) ∧
    boot_mode rSafePersisted = .SAFE_MODE := by
  constructor
  · intro r
    simp only [is_state_safe, Bool.not_eq_false', Bool.or_eq_true,
      decide_eq_true_eq, or_assoc]
  · have hc : is_corrupt rSafePersisted = false := by
      simp [is_corrupt, compute_checksum, rSafePersisted, ADCSMode.val]
      norm_num
    have hs : is_state_safe rSafePersisted = false := by
      simp [is_state_safe, rSafePersisted]
    simp [boot_mode, hc, hs]

/-- C3: the code at the failing input of the claim. After SAFE_MODE is entered
from NOMINAL_POINTING by a LOW_POWER fault and power is restored,
evaluate_transition_conditions returns SAFE_MODE — not the
NOMINAL_POINTING mode that was active before SAFE_MODE was entered — because
the source's previous_operational_mode is a function-local variable
initialized to the current mode. -/
theorem C3_resume_stays_in_safe_mode :
    (handle_fault .LOW_POWER sNominalPointing).1.current_mode = .SAFE_MODE ∧
    evaluate_transition_conditions envResume
      (handle_fault .LOW_POWER sNominalPointing).1 = .SAFE_MODE ∧
    ADCSMode.SAFE_MODE ≠ ADCSMode.NOMINAL_POINTING := by
  refine ⟨rfl, rfl, by decide⟩

/-- C4: the code at the failing input of the claim. Forcing SAFE_MODE by a
LOW_POWER fault from two states that differ only in the pre-fault mode yields
identical resulting states and traces: the mode active before the overwrite
is captured only into a function-local variable of handle_fault that dies at
return (and ADCSState has no previous_operational_mode field), so nothing
that survives records it. -/
theorem C4_previous_mode_not_captured :
    sNominalPointing.current_mode ≠ sSunAcquisition.current_mode ∧
    handle_fault .LOW_POWER sNominalPointing =
      handle_fault .LOW_POWER sSunAcquisition := by
  exact ⟨by decide, rfl⟩

/-- C6: check_faults checks the angular rate before the power level and
returns the first match, so whenever the angular-rate fault is active it
returns HIGH_ANGULAR_RATE; in particular, for the state with angular velocity
[0.2, 0, 0] rad/s and power 3.5 W — where the low-power check is also true —
it returns HIGH_ANGULAR_RATE, not LOW_POWER. -/
theorem C6_fault_priority :
    (∀ s : ADCSState, check_angular_rate s = true →
      check_faults s = .HIGH_ANGULAR_RATE) ∧
    (check_faults sHighRateLowPower = .HIGH_ANGULAR_RATE ∧
     check_faults sHighRateLowPower ≠ .LOW_POWER ∧
     check_power_level sHighRateLowPower = true) := by
  have hA : check_angular_rate sHighRateLowPower = true := by
    simp [check_angular_rate, sHighRateLowPower, MAX_ANGULAR_RATE]
    rw [abs_of_nonneg] <;> norm_num
  constructor
  · intro s h
    simp [check_faults, h]
  · refine ⟨by simp [check_faults, hA], by simp [check_faults, hA], ?_⟩
    simp [check_power_level, sHighRateLowPower, LOW_POWER_THRESHOLD]
    norm_num

/-- Witness for C6: the angular-rate hypothesis holds at the concrete state
with angular velocity [0.2, 0, 0] rad/s and power 3.5 W, and check_faults
returns HIGH_ANGULAR_RATE there. -/
theorem C6_fault_priority_witness :
    check_faults sHighRateLowPower = .HIGH_ANGULAR_RATE :=
  (C6_fault_priority).1 sHighRateLowPower (by
    simp [check_angular_rate, sHighRateLowPower, MAX_ANGULAR_RATE]
    rw [abs_of_nonneg] <;> norm_num)

/-- C7: the escalation policy increments the persisted count on every
SOFTWARE_RESET_REQUIRED or SENSOR_ANOMALY cycle, resets it to zero on a
fault-free cycle, and once the count has reached the threshold 3 it escalates
to a hardware reset instead of a further software reset: three consecutive
triggering cycles each take a software reset and the 4th occurrence takes the
hardware reset. -/
theorem C7_reset_escalation :
    (∀ c, reset_escalation_step c .NONE = (0, .noReset)) ∧
    (∀ c, c < SOFTWARE_RESET_THRESHOLD →
      reset_escalation_step c .SENSOR_ANOMALY = (c + 1, .softwareReset) ∧
      reset_escalation_step c .SOFTWARE_RESET_REQUIRED =
        (c + 1, .softwareReset)) ∧
    (∀ c, SOFTWARE_RESET_THRESHOLD ≤ c →
      reset_escalation_step c .SENSOR_ANOMALY = (c, .hardwareReset)) ∧
    (run_escalation 0 [.SENSOR_ANOMALY, .SENSOR_ANOMALY, .SENSOR_ANOMALY]).2 =
      [.softwareReset, .softwareReset, .softwareReset] ∧
    (run_escalation 0
        [.SENSOR_ANOMALY, .SENSOR_ANOMALY, .SENSOR_ANOMALY,
         .SENSOR_ANOMALY]).2 =
      [.softwareReset, .softwareReset, .softwareReset, .hardwareReset] := by
  refine ⟨?_, ?_, ?_, by decide, by decide⟩
  · intro c
    simp [reset_escalation_step]
  · intro c hc
    constructor <;>
      simp [reset_escalation_step, Nat.not_le.mpr hc, Nat.not_le_of_lt hc]
  · intro c hc
    simp [reset_escalation_step, hc]

/-- Witness for C7: at count 2 a triggering fault still takes a software
reset; at count 3 it escalates to the hardware reset. -/
theorem C7_reset_escalation_witness :
    reset_escalation_step 2 FaultType.SENSOR_ANOMALY = (3, .softwareReset) ∧
    reset_escalation_step 3 FaultType.SENSOR_ANOMALY = (3, .hardwareReset) :=
  ⟨((C7_reset_escalation).2.1 2 (by decide)).1,
   (C7_reset_escalation).2.2.1 3 (by decide)⟩

/-- C10: for every state, check_faults returns only NONE, HIGH_ANGULAR_RATE,
LOW_POWER or SENSOR_ANOMALY — never SOFTWARE_RESET_REQUIRED or CRITICAL — and
consequently the per-cycle fault-management path never performs the
software-reset or hardware-reset actions of handle_fault. -/
theorem C10_fault_image (s : ADCSState) :
    (check_faults s = .NONE ∨ check_faults s = .HIGH_ANGULAR_RATE ∨
     check_faults s = .LOW_POWER ∨ check_faults s = .SENSOR_ANOMALY) ∧
    check_faults s ≠ .SOFTWARE_RESET_REQUIRED ∧
    check_faults s ≠ .CRITICAL ∧
    Event.execSoftwareReset ∉ (manage_faults s).2 ∧
    Event.execHardwareReset ∉ (manage_faults s).2 := by
  cases hA : check_angular_rate s <;> cases hP : check_power_level s <;>
    simp [check_faults, manage_faults, handle_fault, check_sensors, hA, hP]

/-- C5 counterexample: a cycle spent in SAFE_MODE with a quiet environment —
the candidate mode equals the current mode, yet one non-volatile-memory write
occurs (run_safe_mode calls save_persistent_state every cycle it executes),
refuting write-on-transition-only. -/
theorem C5_counterexample :
    evaluate_transition_conditions envQuiet
        (update_sensor_data envQuiet sSafeQuiet) =
      (update_sensor_data envQuiet sSafeQuiet).current_mode ∧
    writeCount (run_cycle envQuiet sSafeQuiet).2 = 1 := by
  constructor
  · rfl
  · simp [run_cycle, writeCount_append, writeCount_manage_faults,
      writeCount_execute_mode_entry, update_sensor_data, sSafeQuiet,
      check_state_transition, evaluate_transition_conditions, envQuiet,
      writeCount_cons, writeCount_nil]

/-- C5 amended: in every cycle the number of non-volatile-memory writes is
exactly (one if the candidate mode differs from the current mode, else zero)
plus (one more if the mode whose behavior runs in that cycle is SAFE_MODE,
whose run_safe_mode persists the state every time it executes); so a
no-transition cycle writes only when in SAFE_MODE, and a transition cycle
writes exactly once after the mode, mode_entry_time and entry action are
updated. -/
theorem C5_amended_writes (env : Env) (s : ADCSState) :
    writeCount (run_cycle env s).2 =
      (if evaluate_transition_conditions env (update_sensor_data env s) ≠
          (update_sensor_data env s).current_mode then 1 else 0) +
      (if (cycle_mid_state env s).current_mode = .SAFE_MODE
        then 1 else 0) := by
  obtain ⟨m, t, av, p⟩ := s
  cases m <;>
    cases hA : env.is_angular_rate_stable <;>
    cases hS : env.sun_vectors_aligned <;>
    cases hP : env.power_restored <;>
    cases hF : env.fault_recovery_complete <;>
    simp [run_cycle, update_sensor_data, check_state_transition,
      evaluate_transition_conditions, cycle_mid_state, hA, hS, hP, hF,
      writeCount_append, writeCount_manage_faults,
      writeCount_execute_mode_entry, save_persistent_state,
      writeCount_cons, writeCount_nil]

/-- C8: the trace of every cycle is exactly the ordered concatenation —
sensor refresh, then the transition step's events, then the mode behavior of
the (possibly updated) current mode, then the software- and hardware-reset
checks, then fault evaluation and handling, then the watchdog refresh; the
watchdog refresh is the last event and occurs nowhere earlier in the cycle,
so a hang in any earlier step leaves the watchdog unrefreshed. -/
theorem C8_cycle_order (env : Env) (s : ADCSState) :
    (run_cycle env s).2 =
      .sensorRefresh ::
        ((check_state_transition env (update_sensor_data env s)).2 ++
          execute_mode_entry (cycle_mid_state env s)
            (cycle_mid_state env s).current_mode ++
          [.swResetCheck, .hwResetCheck] ++
          (manage_faults (cycle_mid_state env s)).2 ++
          [.watchdogRefresh]) ∧
    (run_cycle env s).2.getLast? = some .watchdogRefresh ∧
    Event.watchdogRefresh ∉ (run_cycle env s).2.dropLast := by
  have hrw : (run_cycle env s).2 =
      (Event.sensorRefresh ::
        ((check_state_transition env (update_sensor_data env s)).2 ++
          execute_mode_entry (cycle_mid_state env s)
            (cycle_mid_state env s).current_mode ++
          [.swResetCheck, .hwResetCheck] ++
          (manage_faults (cycle_mid_state env s)).2)) ++
        [Event.watchdogRefresh] := by
    simp [run_cycle, cycle_mid_state]
  refine ⟨rfl, ?_, ?_⟩
  · rw [hrw]
    exact List.getLast?_concat _
  · rw [hrw, List.dropLast_concat]
    simp [watchdog_not_in_transition, watchdog_not_in_entry,
      watchdog_not_in_faults]

/-- C9: the code at the failing input of the claim. For the state
{NOMINAL_POINTING, entry time 42, angular velocity [0.05,0.05,0.05], power 5}
the record save_persistent_state writes carries only the mode and the
mode_entry_time (stored in the timestamp field); its angular_velocity,
power_level and mode_entry_time fields are zeroed rather than copied, its
checksum is zero rather than recomputed over the written fields, and the
written record even fails the store's own corruption check. -/
theorem C9_persist_drops_fields :
    nvm_record_of sStored =
      { current_mode := .NOMINAL_POINTING, mode_entry_time := 0,
        angular_velocity := ⟨0, 0, 0⟩, power_level := 0, timestamp := 42,
        checksum := 0 } ∧
    (nvm_record_of sStored).power_level ≠ sStored.power_level ∧
    (nvm_record_of sStored).angular_velocity ≠ sStored.angular_velocity ∧
    (nvm_record_of sStored).mode_entry_time ≠ sStored.mode_entry_time ∧
    compute_checksum (nvm_record_of sStored) ≠
      (nvm_record_of sStored).checksum ∧
    is_corrupt (nvm_record_of sStored) = true := by
  refine ⟨?_, ?_, ?_, ?_, ?_, ?_⟩
  · simp [nvm_record_of, sStored]
  · simp [nvm_record_of, sStored]
  · simp [nvm_record_of, sStored, Vec3.mk.injEq]
  · simp [nvm_record_of, sStored]
  · simp [nvm_record_of, sStored, compute_checksum, ADCSMode.val]
    norm_num
  · simp [is_corrupt, nvm_record_of, sStored, compute_checksum, ADCSMode.val]
    norm_num

end ADCS
